import Mathlib

/-!
Verification of the PlotResearch document-analysis pipeline (`analyzer.py`).

This file gives a shallow embedding of the core of `DocumentAnalyzer`:
text extraction, the orchestration in `analyze_document`, the rule-based
analyzer `_analyze_with_rules` (with faithful models of the three regular
expressions it uses), the heuristic extractors `_extract_tabular_data` and
`_generate_heatmap_data`, the two AI-backed paths `_analyze_with_groq` and
`_analyze_with_gemini` (external calls modelled as an oracle
`String -> Except String String`, where `Except.error` models a raised
exception), `chat_with_document`, and `DocumentAnalyzer.__init__`.

Python conventions used throughout the embedding:
* a raised exception is modelled by `Except.error msg`;
* Python strings are Lean `String`s (both indexed by code points, so
  `s[:n]` is `String.take s n` and `len(s)` is `String.length`);
* `str.strip()` is `pyStrip`, with Python's ASCII whitespace set
  (non-ASCII whitespace is not modelled; every input considered in the
  theorems below is ASCII);
* `re` patterns are implemented as specialised scanners whose semantics
  (leftmost match, greedy/lazy quantifiers with backtracking) are spelled
  out at each definition.
-/

namespace PlotResearch

/-- Python `\s` (ASCII part): the whitespace class used by `str.strip()`
and by the `[:\s]+` part of the section-heading regexes. -/
def pyIsSpace (c : Char) : Bool :=
  c == ' ' || c == '\t' || c == '\n' || c == '\r' || c == '\x0B' || c == '\x0C'

/-- Python `\w` (ASCII part): word characters, used to evaluate the `\b`
word-boundary assertions of the numeric-token regex `\b\d+\.?\d*\b`. -/
def isWordChar (c : Char) : Bool :=
  c.isAlphanum || c == '_'

/-- Python `str.strip()`: remove leading and trailing whitespace. -/
def pyStrip (s : String) : String :=
  String.mk (((s.data.dropWhile pyIsSpace).reverse.dropWhile pyIsSpace).reverse)

/-- Remove trailing whitespace only (used by the fence-stripping `re.sub`
with pattern `\s*` + three backticks + `$`). -/
def dropTrailingSpace (l : List Char) : List Char :=
  (l.reverse.dropWhile pyIsSpace).reverse

/-- Python `str.split(sep)` for a single-character separator: split at
every occurrence, keeping empty segments (so the result is never empty). -/
def splitOnChar (sep : Char) : List Char → List (List Char)
  | [] => [[]]
  | c :: rest =>
    match splitOnChar sep rest with
    | [] => [[]]
    | seg :: segs =>
      if c == sep then [] :: seg :: segs else (c :: seg) :: segs

/-- Python `str.split(sep)` on strings. -/
def pySplit (s : String) (sep : Char) : List String :=
  (splitOnChar sep s.data).map String.mk

/-- Python `c in s` for a single character. -/
def strContainsChar (s : String) (c : Char) : Bool :=
  s.data.contains c

/-- Python `str.lower()` (ASCII). -/
def pyLower (s : String) : String :=
  String.mk (s.data.map Char.toLower)

/-- Python `str.endswith(pat)`. -/
def strEndsWith (pat s : String) : Bool :=
  pat.data.isSuffixOf s.data

/-- The character class `[:\s]` of the section-heading regexes. -/
def isSepChar (c : Char) : Bool :=
  c == ':' || pyIsSpace c

/-- Holds when the scan position sits before end-of-input or before a
non-word character, i.e. a `\b` holds there given that the previously
matched character was a word character. -/
def noWordAhead : List Char → Bool
  | [] => true
  | c :: _ => !isWordChar c

/-- The lazy capture `(.*?)(?=\n\n|\Z)` with `re.DOTALL`: everything up to
(excluding) the first occurrence of a blank line (`"\n\n"`), or to the end
of the text when there is none. -/
def captureUntilBlank : List Char → List Char
  | '\n' :: '\n' :: _ => []
  | c :: rest => c :: captureUntilBlank rest
  | [] => []

/-- Case-insensitive literal match of `kw` (given in lower case) as a
prefix of `cs`, modelling `re.IGNORECASE` on an ASCII keyword. -/
def lowerPrefixEq (kw : List Char) (cs : List Char) : Bool :=
  (cs.take kw.length).map Char.toLower == kw

/-- One attempt of the regex `(kw)[:\s]+(.*?)(?=\n\n|\Z)` (flags
`re.IGNORECASE | re.DOTALL`) at the current position: the keyword must be
followed by at least one `[:\s]` character; the greedy `[:\s]+` consumes
the whole run (it never needs to backtrack because the lazy capture can
always extend to the end of the string, where `\Z` holds), and group 2 is
the capture up to the next blank line or the end of the text. -/
def matchKwAt (kw : List Char) (cs : List Char) : Option (List Char) :=
  if lowerPrefixEq kw cs then
    let after := cs.drop kw.length
    match after with
    | c :: _ =>
      if isSepChar c then some (captureUntilBlank (after.dropWhile isSepChar))
      else none
    | [] => none
  else none

/-- Model of `re.search` for `(kw1|kw2|kw3)[:\s]+(.*?)(?=\n\n|\Z)`: try each
position from the left; at a position, try the alternatives in order (the
keywords used in `analyzer.py` start with pairwise distinct letters, so at
most one alternative can match at a given position). Returns group 2 of
the leftmost match. -/
def findHeading (kws : List (List Char)) : List Char → Option (List Char)
  | [] => none
  | c :: rest =>
    match kws.findSome? (fun kw => matchKwAt kw (c :: rest)) with
    | some cap => some cap
    | none => findHeading kws rest

/-- Alternatives of the abstract regex in `_analyze_with_rules`:
`(abstract|summary|executive summary)`. -/
def abstractKws : List (List Char) :=
  ["abstract".data, "summary".data, "executive summary".data]

/-- Alternatives of the conclusion regex in `_analyze_with_rules`:
`(conclusion|summary|findings)`. -/
def conclusionKws : List (List Char) :=
  ["conclusion".data, "summary".data, "findings".data]

/-- Group 2 of `re.search(r'(abstract|summary|executive summary)[:\s]+(.*?)(?=\n\n|\Z)', text, re.IGNORECASE | re.DOTALL)`. -/
def findAbstract (text : String) : Option (List Char) :=
  findHeading abstractKws text.data

/-- Group 2 of `re.search(r'(conclusion|summary|findings)[:\s]+(.*?)(?=\n\n|\Z)', text, re.IGNORECASE | re.DOTALL)`. -/
def findConclusion (text : String) : Option (List Char) :=
  findHeading conclusionKws text.data

/-- One match attempt of `\b\d+\.?\d*\b` at a position where the leading
`\b` holds and the first character is a digit.  The greedy pieces are
tried longest-first with the backtracking the Python engine performs:
* `\d+` takes the maximal digit run `d1` (shrinking it can never help,
  since the characters on both sides of a shorter split are digits);
* `\.?` takes a following dot when present, `\d*` the maximal digit run
  `d2` after it; the final `\b` is then checked, and on failure `\d*`
  backtracks to the empty match (intermediate lengths sit between two
  digits, where `\b` cannot hold) and finally `\.?` backtracks to the
  empty match, after which the `\b` between a digit and a following dot
  always holds.
Returns the matched token and the remaining input. -/
def matchNum (cs : List Char) : Option (List Char × List Char) :=
  let d1 := cs.takeWhile Char.isDigit
  let r1 := cs.dropWhile Char.isDigit
  match r1 with
  | '.' :: r2 =>
    let d2 := r2.takeWhile Char.isDigit
    let r3 := r2.dropWhile Char.isDigit
    if d2.length ≥ 1 then
      if noWordAhead r3 then
        some (d1 ++ '.' :: d2, r3)
      else
        -- `\d*` backtracks to empty: the position between `.` and a digit
        -- is a boundary.
        some (d1 ++ ['.'], r2)
    else
      match r2 with
      | c :: _ =>
        if isWordChar c then
          -- boundary between the non-word `.` and a word character
          some (d1 ++ ['.'], r2)
        else
          -- `\.?` backtracks to empty: boundary after the last digit
          some (d1, r1)
      | [] =>
        -- end of input after the dot: `\b` fails there, `\.?` backtracks
        some (d1, r1)
  | _ =>
    if noWordAhead r1 then some (d1, r1) else none

/-- The scan loop of `re.findall(r'\b\d+\.?\d*\b', text)`: try a match at
each position from the left, resuming after the end of a successful match.
`prevNW` records whether the previous character (none at the start) is a
non-word character, which decides the leading `\b`.  The fuel argument is
an upper bound on the number of steps (each step consumes at least one
character). -/
def scanNums : Nat → Bool → List Char → List (List Char)
  | 0, _, _ => []
  | _ + 1, _, [] => []
  | fuel + 1, prevNW, c :: rest =>
    if prevNW && c.isDigit then
      match matchNum (c :: rest) with
      | some (tok, rest2) =>
        let nw := match tok.getLast? with
          | some lc => !isWordChar lc
          | none => true
        tok :: scanNums fuel nw rest2
      | none => scanNums fuel (!isWordChar c) rest
    else
      scanNums fuel (!isWordChar c) rest

/-- Model of `re.findall(r'\b\d+\.?\d*\b', text)`: all numeric tokens of the text,
in order of appearance. -/
def findNumberTokens (text : String) : List String :=
  (scanNums (text.data.length + 1) true text.data).map String.mk

/-- Value of a digit string (most significant digit first). -/
def digitsToNat (ds : List Char) : Nat :=
  ds.foldl (fun a c => a * 10 + (c.toNat - '0'.toNat)) 0

/-- Python `float(tok)` on a token matched by `\b\d+\.?\d*\b`, modelled
exactly over the rationals (the values appearing in the verified claims
are small integers, where IEEE floats and rationals agree). -/
def pyFloat (tok : String) : ℚ :=
  let ip := tok.data.takeWhile Char.isDigit
  let rest := tok.data.dropWhile Char.isDigit
  let fp := match rest with
    | '.' :: f => f.takeWhile Char.isDigit
    | _ => []
  -- With no fractional digits the value is the integer part (the general
  -- formula below reduces to it, since the fractional term is `0 / 1`);
  -- the split keeps integer tokens in cast normal form.
  if fp.isEmpty then (digitsToNat ip : ℚ)
  else (digitsToNat ip : ℚ) + (digitsToNat fp : ℚ) / (10 : ℚ) ^ fp.length

/-! ## The data model (the dictionary shapes built by `analyzer.py`) -/

/-- One element of a chart's `datasets` list. -/
structure Dataset where
  label : String
  data : List ℚ
  color : String
deriving DecidableEq, Repr

/-- The `chart` dictionary of a section (standard chart types). -/
structure Chart where
  type : String
  labels : List String
  datasets : List Dataset
deriving DecidableEq, Repr

/-- One element of a dashboard's `sections` list. -/
structure Section where
  id : String
  title : String
  content_html : String
  chart : Option Chart
deriving DecidableEq, Repr

/-- The `ui_theme` dictionary. -/
structure UiTheme where
  primary_color : String
  accent_color : String
  layout : String
deriving DecidableEq, Repr

/-- The dashboard dictionary returned by `_analyze_with_rules` and
`_generate_error_response`. -/
structure Dashboard where
  title : String
  sections : List Section
  ui_theme : UiTheme
  export_html : String
  share_ready : Bool
deriving DecidableEq, Repr

/-- The dictionary returned by `_generate_heatmap_data`. -/
structure HeatmapData where
  type : String
  z : List (List ℚ)
  x : List String
  y : List String
  colorscale : String
deriving DecidableEq, Repr

/-- One table returned by `_extract_tabular_data`. -/
structure Table where
  headers : List String
  rows : List (List String)
deriving DecidableEq, Repr

/-! ## The rule-based analyzer -/

/-- The function `_generate_error_response(error_msg)`. -/
def _generate_error_response (error_msg : String) : Dashboard :=
  { title := "Analysis Error"
    sections := [{ id := "error", title := "Error",
                   content_html := "<p>" ++ error_msg ++ "</p>", chart := none }]
    ui_theme := { primary_color := "#ef4444", accent_color := "#dc2626",
                  layout := "single-column" }
    export_html := "<section><h2>Error</h2><p>" ++ error_msg ++ "</p></section>"
    share_ready := false }

/-- The function `_analyze_with_rules(text)`: title from the first line, optional
abstract section, optional metrics section (bar chart over the first six
numeric tokens when at least three are present), optional conclusion
section, `export_html` accumulated over the sections, fixed theme,
`share_ready` unconditionally `True`. -/
def _analyze_with_rules (text : String) : Dashboard :=
  let lines := pySplit text '\n'
  let title := match lines with
    | [] => "Document Analysis"
    | l :: _ => l.take 100
  let absSections : List Section :=
    match findAbstract text with
    | some cap =>
      [{ id := "abstract", title := "Abstract",
         content_html := "<p>" ++ String.mk (cap.take 500) ++ "</p>", chart := none }]
    | none => []
  let numbers := findNumberTokens text
  let metricSections : List Section :=
    if numbers.length ≥ 3 then
      let chart_data := (numbers.take 6).map pyFloat
      [{ id := "metrics", title := "Key Metrics",
         content_html := "<p>Numerical data extracted from the document.</p>",
         chart := some
           { type := "bar"
             labels := (List.range chart_data.length).map
               (fun i => "Metric " ++ toString (i + 1))
             datasets := [{ label := "Values", data := chart_data, color := "#0ea5e9" }] } }]
    else []
  let conclSections : List Section :=
    match findConclusion text with
    | some cap =>
      [{ id := "conclusion", title := "Conclusion",
         content_html := "<p>" ++ String.mk (cap.take 500) ++ "</p>", chart := none }]
    | none => []
  let sections := absSections ++ metricSections ++ conclSections
  let export_html :=
    (sections.foldl (fun acc s => acc ++ "<h2>" ++ s.title ++ "</h2>" ++ s.content_html)
      "<section>") ++ "</section>"
  { title := title
    sections := sections
    ui_theme := { primary_color := "#0ea5e9", accent_color := "#6366f1",
                  layout := "single-column" }
    export_html := export_html
    share_ready := true }

/-! ## Prompt templates (the f-string literals of `analyzer.py`, split at
their interpolation points; literal braces are escaped, apostrophes are
written with unicode escapes) -/

def groqTemplateA : String :=
"You are an elite Frontend Developer and UI/UX Designer. Your task is to analyze the provided document and create a WORLD-CLASS, HIGHLY RESPONSIVE, and ANIMATED HTML dashboard with ADVANCED VISUALIZATIONS.\n\nCRITICAL DESIGN REQUIREMENTS:\n1.  **Visual Style**: Use a modern, premium aesthetic (Glassmorphism, subtle gradients, deep shadows).\n    -   Background: Use a sophisticated gradient or mesh gradient.\n    -   Cards: White/translucent with backdrop-filter: blur(10px), rounded corners (border-radius: 16px+), and soft shadows.\n    -   Typography: Use system fonts (Inter, system-ui) with perfect hierarchy.\n2.  **Responsiveness**: MUST be fully responsive.\n    -   Use CSS Grid and Flexbox.\n    -   Include `@media` queries for mobile devices (stack columns, adjust padding).\n    -   Ensure charts resize correctly.\n3.  **Animations**: The page MUST feel alive.\n    -   **Entry Animations**: Elements must fade in and slide up as they enter the viewport.\n    -   **Hover Effects**: Buttons and cards must scale/lift on hover.\n    -   **Chart Animations**: Charts must animate on load.\n4.  **Interactivity**:\n    -   Include a sticky navigation bar.\n    -   Add a \"Back to Top\" button.\n    -   Make charts interactive (tooltips enabled).\n    -   Add export buttons (PDF and PowerPoint).\n\nTECHNICAL CONSTRAINTS:\n-   **Single File**: Output a single HTML string containing ALL CSS (<style>) and JS (<script>).\n-   **No External CSS Files**: All styles must be embedded.\n-   **Required Libraries** (use CDN):\n    -   Chart.js: `https://cdn.jsdelivr.net/npm/chart.js`\n    -   Plotly.js: `https://cdn.plot.ly/plotly-2.27.0.min.js`\n    -   jQuery: `https://code.jquery.com/jquery-3.7.1.min.js`\n    -   DataTables: `https://cdn.datatables.net/1.13.7/js/jquery.dataTables.min.js`\n    -   DataTables CSS: `https://cdn.datatables.net/1.13.7/css/jquery.datatables.min.css`\n    -   FontAwesome (optional): For icons\n    -   Google Fonts (optional)\n-   **Scripting**:\n    -   Write custom vanilla JS for scroll animations (IntersectionObserver).\n    -   Initialize Chart.js instances properly.\n    -   Initialize Plotly charts for advanced visualizations.\n    -   Initialize DataTables for interactive tables.\n\nADVANCED VISUALIZATION REQUIREMENTS:\n1.  **Heatmap**: If you find correlation data, comparison matrices, or frequency data, create a heatmap using Plotly.\n2.  **Sankey Diagram**: If you find flow data (budget allocation, process flows, transitions), create a Sankey diagram using Plotly.\n3.  **Interactive Tables**: If you extract tabular data, create sortable/searchable tables using DataTables.\n4.  **Standard Charts**: Continue using Chart.js for bar, line, pie, and doughnut charts.\n\nCONTENT GENERATION:\n-   **Analyze** the document text below.\n-   **Extract** meaningful sections (Abstract, Key Metrics, Findings, Conclusion).\n-   **Visualize** data intelligently:\n    -   Standard charts (Bar, Line, Doughnut) for basic metrics\n    -   Heatmaps for correlations or comparison matrices\n    -   Sankey diagrams for flow/allocation data\n    -   Interactive tables for structured data\n-   **Structure**:\n    -   Header (Title, Subtitle, Export Buttons)\n    -   Executive Summary / Abstract ("

def groqTemplateB : String :=
" length. "

def groqTemplateC : String :=
")\n    -   Key Metrics Grid (Cards with big numbers)\n    -   Detailed Analysis Sections\n    -   Advanced Charts Section (Heatmaps, Sankey if applicable)\n    -   Interactive Data Tables (if applicable)\n    -   Standard Charts Section\n    -   Conclusion\n    -   Footer\n\nEXPORT BUTTONS:\nInclude these buttons in the header:\n```html\n<div class=\"export-buttons\" style=\"display: flex; gap: 10px; margin-top: 20px;\">\n    <button onclick=\"window.print()\" style=\"background: #000; color: white; padding: 12px 24px; border: none; border-radius: 8px; cursor: pointer; font-weight: 600; transition: transform 0.2s;\">\n        📄 Export to PDF\n    </button>\n</div>\n```\n\n"

def groqTemplateD : String :=
"\n\nOUTPUT FORMAT:\nReturn ONLY the raw HTML code. Start with `<!DOCTYPE html>`. Do not wrap in markdown code blocks.\n\n-------------------------------------\nDOCUMENT CONTENT:\n-------------------------------------\n\n"

def groqTemplateE : String :=
"\n\n-------------------------------------\nGENERATE THE HTML DASHBOARD NOW:\n"

def chatTemplateA : String :=
"You are a helpful AI assistant. Answer the user\u0027s question based ONLY on the document content provided below.\n        \nDOCUMENT CONTENT:\n"

def chatTemplateB : String :=
"\n\nUSER QUESTION:\n"

def chatTemplateC : String :=
"\n\nANSWER:\n"

def geminiTemplateA : String :=
"You are a Research Dashboard Generator AI.\nYour job is to analyze academic papers, research reports, feasibility studies, business strategy documents, or any complex text.\nYou must return a structured JSON output that the Flask backend will convert into a dynamic HTML dashboard AND a Canvas-renderable HTML fragment.\nYour output is NOT a fixed set of sections. You must decide which sections are relevant based on the document\u0027s actual content.\n\n-------------------------------------\nRULE 1 — Section Detection\n-------------------------------------\nFrom the uploaded text, detect which of the following section types exist:\n\nPossible section types (include any relevant ones):\n- abstract / executive summary\n- objectives / research aims\n- methodology / approach\n- dataset overview\n- experiments / results\n- findings / observations\n- KPIs / metrics / numerical highlights\n- market analysis\n- competitor analysis\n- financial analysis\n- SWOT (only if enough info exists)\n- risks / limitations\n- recommendations\n- conclusion\n- custom section types if needed\n\nInclude ONLY sections actually supported by the document.\n\n-------------------------------------\nRULE 2 — Output JSON Format\n-------------------------------------\n\nReturn JSON shaped like:\n\n\x7b\n  \"title\": \"Main Title\",\n  \"sections\": [\n    \x7b\n      \"id\": \"unique_id\",\n      \"title\": \"Section Title\",\n      \"content_html\": \"<p>HTML content here</p>\",\n\n      \"chart\": \x7b\n        \"type\": \"line | bar | pie | doughnut | radar | scatter | bubble\",\n        \"labels\": [...],\n        \"datasets\": [\n          \x7b\n            \"label\": \"Dataset Name\",\n            \"data\": [...],\n            \"color\": \"#HEX\"\n          \x7d\n        ]\n      \x7d\n    \x7d\n  ],\n\n  \"ui_theme\": \x7b\n    \"primary_color\": \"#0ea5e9\",\n    \"accent_color\": \"#6366f1\",\n    \"layout\": \"single-column | two-column | dashboard-cards | scientific-paper\"\n  \x7d,\n\n  \"export_html\": \"<section>...fully assembled HTML body content...</section>\",\n  \"share_ready\": true\n\x7d\n\nNOTES:\n- `export_html` should contain a fully merged HTML body snippet combining all sections in visual order.\n- It must NOT contain <html>, <head>, scripts, CSS, or Tailwind classes beyond basic layout wrappers.\n- Flask will wrap this in a full template.\n- Canvas will directly render this HTML fragment.\n\nIf a section has no chart, set `\"chart\": null`.\n\n-------------------------------------\nRULE 3 — HTML Content Rules\n-------------------------------------\nThe \"content_html\" field and \"export_html\" field must:\n- Use only semantic HTML: <p>, <ul>, <li>, <strong>, <h3>, <h4>, <table>, <tr>, <td>\n- NO inline CSS\n- NO <script> tags\n- NO external resources\n- NO layout containers beyond div/section\n- NO Tailwind classes (the Flask template will inject styling)\n\n-------------------------------------\nRULE 4 — Chart Extraction\n-------------------------------------\nIf the document includes numeric data:\n- Identify meaningful patterns\n- Use only actual values from the text\n- Choose correct visual type:\n\nRules:\n- Time-series → line chart\n- Category distribution → bar or doughnut chart\n- Comparison → bar chart\n- Relationship → scatter/bubble chart\n- If no valid numbers → set chart to null\n\nNever fabricate values.\n\n-------------------------------------\nRULE 5 — Theme Selection\n-------------------------------------\nDecide the theme based on document type:\n\n- Academic papers → scientific-paper layout\n- Business or market research → dashboard-cards\n- Strategy / SWOT reports → two-column layout\n- Financial documents → corporate layout\n\n-------------------------------------\nRULE 6 — Share Support\n-------------------------------------\nSet `\"share_ready\": true` when:\n- All sections are valid\n- JSON is structurally correct\n\nThis tells the backend to generate a shareable link.\n\n-------------------------------------\nRULE 7 — Response Format\n-------------------------------------\nYour ENTIRE OUTPUT must be pure JSON.\nNo explanations.\nNo markdown.\nNo code blocks.\n\nReturn ONLY the JSON object.\n\n-------------------------------------\nDOCUMENT TO ANALYZE:\n-------------------------------------\n\n"

def geminiTemplateB : String :=
"\n"

/-! ## Prompt construction -/

/-- The `summary_instruction` variable of `_analyze_with_groq`. -/
def summary_instruction_of (summary_length : String) : String :=
  if summary_length == "Brief" then
    "Keep summaries concise and high-level. Focus on bullet points."
  else if summary_length == "Detailed" then
    "Provide in-depth comprehensive summaries and detailed analysis."
  else ""

/-- The `user_instructions` variable of `_analyze_with_groq` (empty when
`custom_prompt` is falsy, i.e. the empty string). -/
def user_instructions_of (custom_prompt : String) : String :=
  if custom_prompt == "" then ""
  else
    "\nUSER CUSTOM INSTRUCTIONS:\n" ++ custom_prompt ++
      "\n(Prioritize these instructions over default behavior)"

/-- The full Groq prompt f-string of `_analyze_with_groq`, with its four
interpolations `summary_length`, `summary_instruction`,
`user_instructions` and `text[:25000]`. -/
def groq_prompt (text custom_prompt summary_length : String) : String :=
  groqTemplateA ++ summary_length ++ groqTemplateB ++
    summary_instruction_of summary_length ++ groqTemplateC ++
    user_instructions_of custom_prompt ++ groqTemplateD ++
    text.take 25000 ++ groqTemplateE

/-- The Gemini prompt f-string of `_analyze_with_gemini`, with its single
interpolation `text[:15000]`. -/
def gemini_prompt (text : String) : String :=
  geminiTemplateA ++ text.take 15000 ++ geminiTemplateB

/-- The chat prompt f-string of `chat_with_document`, with interpolations
`text[:20000]` and `question`. -/
def chat_prompt (text question : String) : String :=
  chatTemplateA ++ text.take 20000 ++ chatTemplateB ++ question ++ chatTemplateC

/-! ## Markdown code-fence stripping (the `re.sub` calls on AI responses) -/

/-- Model of `re.sub(pat + r'\s*', '', s)` for an anchored leading pattern `^pat`
(no `re.MULTILINE`, so `^` only matches at the start): strip the literal
prefix and the whitespace run after it, if present. -/
def subLeadingFence (pat : String) (s : String) : String :=
  if pat.data.isPrefixOf s.data then String.mk ((s.drop pat.length).data.dropWhile pyIsSpace)
  else s

/-- Model of `re.sub` with the pattern `\s*` + three backticks + `$` (no
`re.MULTILINE`, so `$` matches at the end of the string or just before a
final newline): strip a trailing fence and the whitespace run before it. -/
def subTrailingFence (s : String) : String :=
  if strEndsWith "```" s then
    String.mk (dropTrailingSpace (s.dropRight 3).data)
  else if strEndsWith "```\n" s then
    String.mk (dropTrailingSpace (s.dropRight 4).data ++ ['\n'])
  else s

/-- The three `re.sub` calls of `_analyze_with_groq` (`^```html\s*`, then
`^```\s*`, then the trailing fence). -/
def stripHtmlFences (s : String) : String :=
  subTrailingFence (subLeadingFence "```" (subLeadingFence "```html" s))

/-- The three `re.sub` calls of `_analyze_with_gemini` (`^```json\s*`,
then `^```\s*`, then the trailing fence). -/
def stripJsonFences (s : String) : String :=
  subTrailingFence (subLeadingFence "```" (subLeadingFence "```json" s))

/-! ## Heuristic extractors -/

/-- The cell split of `_extract_tabular_data`: split on `|` when the line
contains one (otherwise on tab), strip each cell, keep the truthy
(non-empty) ones. -/
def pySplitCells (line : String) : List String :=
  if strContainsChar line '|' then
    ((pySplit line '|').map pyStrip).filter (fun c => c ≠ "")
  else
    ((pySplit line '\t').map pyStrip).filter (fun c => c ≠ "")

/-- The `current_table[0]` / `current_table[1:]` packaging of an accumulated
table. -/
def mkTable (rows : List (List String)) : Table :=
  match rows with
  | h :: t => { headers := h, rows := t }
  | [] => { headers := [], rows := [] }

/-- The line loop of `_extract_tabular_data`, with the accumulator
`current` (`current_table`) and the output `acc` (`tables`).  A line
containing `|` or a tab contributes its cells when there are at least two
of them and is otherwise skipped (the accumulation stays open); a line
with no separator closes a non-empty accumulation, which is emitted when
it has at least two rows; a trailing accumulation is flushed at
end-of-input. -/
def tabularLoop : List String → List (List String) → List Table → List Table
  | [], current, acc =>
    if current ≠ [] ∧ current.length ≥ 2 then acc ++ [mkTable current] else acc
  | line :: rest, current, acc =>
    if strContainsChar line '|' || strContainsChar line '\t' then
      let cells := pySplitCells line
      if cells.length ≥ 2 then tabularLoop rest (current ++ [cells]) acc
      else tabularLoop rest current acc
    else if current ≠ [] then
      tabularLoop rest []
        (if current.length ≥ 2 then acc ++ [mkTable current] else acc)
    else
      tabularLoop rest [] acc

/-- The function `_extract_tabular_data(text)`. -/
def _extract_tabular_data (text : String) : List Table :=
  tabularLoop (pySplit text '\n') [] []

/-- Row-major reshape into consecutive chunks of `n`
(`np.array(...).reshape(size, size)` on a list of exactly `size * size`
elements).  Fuel-driven; the wrapper supplies enough fuel. -/
def chunksF {α : Type} : Nat → Nat → List α → List (List α)
  | 0, _, _ => []
  | _ + 1, _, [] => []
  | fuel + 1, n, l => l.take n :: chunksF fuel n (l.drop n)

/-- Row-major reshape into chunks of `n`. -/
def chunksOf {α : Type} (n : Nat) (l : List α) : List (List α) :=
  chunksF l.length n l

/-- Unfolding counter for the integer square root: after `fuel` steps the
value is `min (Nat.sqrt n) fuel`. -/
def isqrtAux (n : Nat) : Nat → Nat
  | 0 => 0
  | fuel + 1 =>
    let r := isqrtAux n fuel
    if (r + 1) * (r + 1) ≤ n then r + 1 else r

/-- Python `int(n ** 0.5)` on a list length: the floor square root (the
float power is exact at every length that can occur; this definition
agrees with `Nat.sqrt` — see `pyIntSqrt_eq_sqrt` — but unfolds by plain
structural recursion). -/
def pyIntSqrt (n : Nat) : Nat :=
  isqrtAux n n

/-- The function `_generate_heatmap_data(text)`: `None` below nine numeric tokens,
otherwise a square matrix of side `min(5, int(len(numbers) ** 0.5))`
(the floor square root: the float power is exact for every count that can
occur) filled row-major with the first `side * side` numbers.  The
surrounding `try` can never fire on this computation. -/
def _generate_heatmap_data (text : String) : Option HeatmapData :=
  let numbers := findNumberTokens text
  if numbers.length < 9 then none
  else
    let size := min 5 (pyIntSqrt numbers.length)
    let matrix_data := (numbers.take (size * size)).map pyFloat
    some { type := "heatmap"
           z := chunksOf size matrix_data
           x := (List.range size).map (fun i => "Metric " ++ toString (i + 1))
           y := (List.range size).map (fun i => "Category " ++ toString (i + 1))
           colorscale := "Viridis" }

/-! ## External world: parsed JSON values, the generation service, the
file system -/

/-- Parsed JSON values (the possible results of `json.loads`). -/
inductive PyJson where
  | null
  | bool (b : Bool)
  | num (q : ℚ)
  | str (s : String)
  | arr (elems : List PyJson)
  | obj (fields : List (String × PyJson))

/-- The result of one analysis call: either a dashboard dictionary (rule
based path, or the error response), the custom-HTML dictionary
`{"html_content": ..., "is_custom_html": True, "text_content": ...}` of
the Groq path, or the raw parsed JSON the Gemini path returns without
validation. -/
inductive AnalyzeResult where
  | dashboard (d : Dashboard)
  | customHtml (html_content : String) (text_content : String)
  | geminiJson (j : PyJson)

/-- Outcomes of the file reads performed by `extract_text`, one oracle per
format branch.  `readTxt` models `open(path, errors='ignore').read()`
(an `Except.error` is a raised `OSError`; decode errors cannot occur);
`readPdf` models the whole `PyPDF2` page loop, `readDocx` the
`python-docx` paragraph join (for these two an `Except.error` is any
exception inside the corresponding `try`). -/
structure PyFS where
  readTxt : String → Except String String
  readPdf : String → Except String String
  readDocx : String → Except String String

/-! ## DocumentAnalyzer -/

/-- The value stored in `self.model`: the string `'groq'` or a
`genai.GenerativeModel` object (both truthy). -/
inductive ModelVal where
  | groqStr
  | geminiModel
deriving DecidableEq, Repr

/-- The attribute state of a `DocumentAnalyzer` after `__init__`.
`client = none` means the attribute `self.client` was never assigned, so
reading it raises `AttributeError`; `model = none` means `self.model` is
`None` (that attribute is always assigned first). -/
structure AnalyzerState where
  ai_provider : String
  model : Option ModelVal
  client : Option Unit
deriving DecidableEq, Repr

/-- The configuration surface read by `__init__`. -/
structure PyConfig where
  AI_PROVIDER : String
  GROQ_API_KEY : String
  GEMINI_API_KEY : String
deriving DecidableEq, Repr

/-- The constructor `DocumentAnalyzer.__init__`: `groqCtor` models `from groq import
Groq; Groq(api_key=...)` and `geminiCtor` models `import
google.generativeai; genai.GenerativeModel('gemini-pro')`; a failing
constructor is caught and leaves the corresponding attributes unset.
Note that `self.client` is assigned only in the successful Groq branch. -/
def DocumentAnalyzer.init (cfg : PyConfig)
    (groqCtor geminiCtor : Except String Unit) : AnalyzerState :=
  let st0 : AnalyzerState :=
    { ai_provider := cfg.AI_PROVIDER, model := none, client := none }
  if cfg.AI_PROVIDER = "groq" then
    if cfg.GROQ_API_KEY ≠ "" then
      match groqCtor with
      | .ok _ => { st0 with client := some (), model := some .groqStr }
      | .error _ => st0
    else st0
  else if cfg.AI_PROVIDER = "gemini" ∧ cfg.GEMINI_API_KEY ≠ "" then
    match geminiCtor with
    | .ok _ => { st0 with model := some .geminiModel }
    | .error _ => st0
  else st0

/-- The extension dispatch key of `extract_text`:
`file_path.lower().split('.')[-1]`. -/
def fileExtOf (file_path : String) : String :=
  (pySplit (pyLower file_path) '.').getLastD ""

/-- The function `extract_text(file_path)`: dispatch on the lower-cased extension
(`file_path.lower().split('.')[-1]`).  The `txt` branch returns the read
result unchanged — a raised `OSError` propagates, because that branch has
no `try`.  The `pdf` and `docx`/`doc` branches convert any failure into a
short error string.  Unknown extensions yield the empty string. -/
def extract_text (fs : PyFS) (file_path : String) : Except String String :=
  let ext := fileExtOf file_path
  if ext = "txt" then
    fs.readTxt file_path
  else if ext = "pdf" then
    match fs.readPdf file_path with
    | .ok t => .ok t
    | .error e => .ok ("Error extracting PDF: " ++ e)
  else if ext = "docx" ∨ ext = "doc" then
    match fs.readDocx file_path with
    | .ok t => .ok t
    | .error e => .ok ("Error extracting DOCX: " ++ e)
  else
    .ok ""

/-- The function `_analyze_with_groq(text, custom_prompt, summary_length)`: build the
prompt, call the service (`svc` models
`self.client.chat.completions.create(...).choices[0].message.content`);
any exception inside the `try` falls back to `_analyze_with_rules`; a
successful response is stripped and returned as the custom-HTML
dictionary together with the original text. -/
def _analyze_with_groq (svc : String → Except String String)
    (text custom_prompt summary_length : String) : AnalyzeResult :=
  match svc (groq_prompt text custom_prompt summary_length) with
  | .error _ => .dashboard (_analyze_with_rules text)
  | .ok content => .customHtml (stripHtmlFences (pyStrip content)) text

/-- The function `_analyze_with_gemini(text)`: call the service (`svc` models
`self.model.generate_content(prompt).text`), strip fences, `json.loads`
the result (`jsonLoads`); any exception inside the `try` — including a
parse failure — falls back to `_analyze_with_rules`; the parsed JSON is
returned unvalidated. -/
def _analyze_with_gemini (svc : String → Except String String)
    (jsonLoads : String → Except String PyJson) (text : String) : AnalyzeResult :=
  match svc (gemini_prompt text) with
  | .error _ => .dashboard (_analyze_with_rules text)
  | .ok responseText =>
    match jsonLoads (stripJsonFences (pyStrip responseText)) with
    | .ok j => .geminiJson j
    | .error _ => .dashboard (_analyze_with_rules text)

/-- The function `chat_with_document(text, question)`.  The guard `if not self.client`
reads `self.client`, which raises `AttributeError` whenever `__init__`
did not construct a Groq client (the attribute is never pre-initialised,
so the fixed "AI Chat not available" reply is unreachable); with a client
present, a service failure is caught and returned as an inline error
string. -/
def chat_with_document (st : AnalyzerState) (svc : String → Except String String)
    (text question : String) : Except String String :=
  match st.client with
  | none => .error "AttributeError: DocumentAnalyzer object has no attribute client"
  | some _ =>
    match svc (chat_prompt text question) with
    | .ok r => .ok (pyStrip r)
    | .error e => .ok ("Error generating answer: " ++ e)

/-- The function `analyze_document(file_path, custom_prompt, summary_length)`: extract
text (a raised extraction error propagates), return the error dashboard
on missing or short text, otherwise dispatch on the configured model and
provider; the per-call options are passed to the Groq path only. -/
def analyze_document (st : AnalyzerState) (svc : String → Except String String)
    (jsonLoads : String → Except String PyJson) (fs : PyFS)
    (file_path custom_prompt summary_length : String) : Except String AnalyzeResult :=
  match extract_text fs file_path with
  | .error e => .error e
  | .ok text =>
    if text = "" ∨ (pyStrip text).length < 100 then
      .ok (.dashboard (_generate_error_response "Document too short or empty"))
    else if st.model.isSome then
      if st.ai_provider = "groq" then
        .ok (_analyze_with_groq svc text custom_prompt summary_length)
      else if st.ai_provider = "gemini" then
        .ok (_analyze_with_gemini svc jsonLoads text)
      else
        .ok (.dashboard (_analyze_with_rules text))
    else
      .ok (.dashboard (_analyze_with_rules text))

/-! ## Specification-side definitions

These definitions follow the wording of the specification (not the
source); they exist to be compared with the source-derived definitions
above. -/

/-- The per-section HTML of the spec's `export_html` description:
`<h2>{title}</h2>{content_html}` concatenated in section order. -/
def sectionsHtml : List Section → String
  | [] => ""
  | s :: rest => "<h2>" ++ s.title ++ "</h2>" ++ s.content_html ++ sectionsHtml rest

/-- The spec's description of `export_html` as a function of the sections
sequence alone: the concatenation above wrapped in a single container
element. -/
def exportShapeOfSections (sections : List Section) : String :=
  "<section>" ++ sectionsHtml sections ++ "</section>"

/-- The tabular loop exactly as the claim describes it: a line qualifies
when it contains a separator and splits into at least two cells, and any
non-qualifying line closes the current accumulation. -/
def tabularClaimLoop : List String → List (List String) → List Table → List Table
  | [], current, acc =>
    if current.length ≥ 2 then acc ++ [mkTable current] else acc
  | line :: rest, current, acc =>
    if (strContainsChar line '|' || strContainsChar line '\t') ∧ 2 ≤ (pySplitCells line).length then
      tabularClaimLoop rest (current ++ [pySplitCells line]) acc
    else
      tabularClaimLoop rest []
        (if current.length ≥ 2 then acc ++ [mkTable current] else acc)

/-- Tabular extraction as described by the claim. -/
def tabularClaimSpec (text : String) : List Table :=
  tabularClaimLoop (pySplit text '\n') [] []

/-- The tabular loop as the amended claim describes it: a line containing
a separator but splitting into fewer than two cells is skipped without
closing the accumulation; only a line with no separator (or the end of
the text) closes it. -/
def tabularAmendedLoop : List String → List (List String) → List Table → List Table
  | [], current, acc =>
    if current.length ≥ 2 then acc ++ [mkTable current] else acc
  | line :: rest, current, acc =>
    if strContainsChar line '|' || strContainsChar line '\t' then
      if (pySplitCells line).length ≥ 2 then
        tabularAmendedLoop rest (current ++ [pySplitCells line]) acc
      else
        tabularAmendedLoop rest current acc
    else
      tabularAmendedLoop rest []
        (if current.length ≥ 2 then acc ++ [mkTable current] else acc)

/-- Tabular extraction as described by the amended claim. -/
def tabularAmendedSpec (text : String) : List Table :=
  tabularAmendedLoop (pySplit text '\n') [] []

/-- The heatmap dictionary as the claim describes it: side
`min(5, floor(sqrt(count)))`, the first `side * side` numbers reshaped
row-major, synthetic axis labels. -/
def heatmapSpec (text : String) : HeatmapData :=
  let numbers := findNumberTokens text
  let side := min 5 (Nat.sqrt numbers.length)
  { type := "heatmap"
    z := chunksOf side ((numbers.take (side * side)).map pyFloat)
    x := (List.range side).map (fun i => "Metric " ++ toString (i + 1))
    y := (List.range side).map (fun i => "Category " ++ toString (i + 1))
    colorscale := "Viridis" }

/-! ## Concrete fixtures used in the theorems below -/

/-- Input whose abstract capture carries a script tag verbatim. -/
def cexText : String := "Abstract: <script>alert(1)</script>\n\nrest"

/-- The abstract example from the specification. -/
def absText : String := "Abstract: The quick brown fox jumps. \n\n"

/-- Text whose numeric tokens are exactly `1 2 3 4 5 6 7`. -/
def numText : String := "1 2 3 4 5 6 7"

/-- Text with exactly nine numeric tokens. -/
def nineText : String := "1 2 3 4 5 6 7 8 9"

/-- Text with exactly eight numeric tokens. -/
def eightText : String := "1 2 3 4 5 6 7 8"

/-- The two-row table example from the specification. -/
def tabHeaderBody : String := "a|b|c\n1|2|3\n"

/-- A single qualifying table line with no follow-up row. -/
def tabSingleLine : String := "a|b|c"

/-- Two qualifying table rows separated by a line that contains a
separator but splits into a single cell. -/
def tabCexText : String := "a|b\nx|\nc|d"

/-- A 120-character document body. -/
def longText : String := String.mk (List.replicate 120 'a')

/-- A file system on which every read raises. -/
def fsMissingTxt : PyFS :=
  { readTxt := fun p => .error ("FileNotFoundError: " ++ p)
    readPdf := fun _ => .error "read failure"
    readDocx := fun _ => .error "read failure" }

/-- A file system whose text files all hold a five-character document. -/
def fsShortTxt : PyFS :=
  { readTxt := fun _ => .ok "short"
    readPdf := fun _ => .ok "short"
    readDocx := fun _ => .ok "short" }

/-- A generation service whose every call raises. -/
def svcFailing : String → Except String String :=
  fun _ => .error "RateLimitError"

/-- A JSON parser whose every call raises. -/
def jsonLoadsFailing : String → Except String PyJson :=
  fun _ => .error "JSONDecodeError"

/-- A generation service that answers exactly one prompt — the Groq
prompt built from empty text with `custom_prompt = "x"` — and raises on
every other prompt; it separates runs that send different prompts. -/
def svcProbeGroq : String → Except String String :=
  fun prompt =>
    if prompt = groq_prompt "" "x" "Standard" then .ok "A"
    else .error "unexpected prompt"

/-- Configuration: Groq provider selected, no API key. -/
def cfgGroqNoKey : PyConfig :=
  { AI_PROVIDER := "groq", GROQ_API_KEY := "", GEMINI_API_KEY := "" }

/-- Configuration: Gemini provider selected, key present. -/
def cfgGemini : PyConfig :=
  { AI_PROVIDER := "gemini", GROQ_API_KEY := "", GEMINI_API_KEY := "k" }

/-! ## Helper lemmas -/

theorem str_append_empty (s : String) : s ++ "" = s := by
  cases s with
  | mk data => exact congrArg String.mk (List.append_nil data)

theorem str_empty_append (s : String) : "" ++ s = s := by
  cases s with
  | mk data => rfl

theorem str_append_assoc (a b c : String) : a ++ b ++ c = a ++ (b ++ c) := by
  cases a with
  | mk x =>
    cases b with
    | mk y =>
      cases c with
      | mk z => exact congrArg String.mk (List.append_assoc x y z)

theorem str_length_append (a b : String) : (a ++ b).length = a.length + b.length := by
  cases a with
  | mk x =>
    cases b with
    | mk y => exact List.length_append x y

theorem length_dropWhile_le (p : Char → Bool) (l : List Char) :
    (l.dropWhile p).length ≤ l.length := by
  induction l with
  | nil => simp
  | cons a t ih =>
    by_cases h : p a
    · simpa [List.dropWhile_cons, h] using Nat.le_succ_of_le ih
    · simp [List.dropWhile_cons, h]

theorem pyStrip_length_le (s : String) : (pyStrip s).length ≤ s.length := by
  show (((s.data.dropWhile pyIsSpace).reverse.dropWhile pyIsSpace).reverse).length ≤ s.data.length
  rw [List.length_reverse]
  calc ((s.data.dropWhile pyIsSpace).reverse.dropWhile pyIsSpace).length
      ≤ (s.data.dropWhile pyIsSpace).reverse.length := length_dropWhile_le _ _
    _ = (s.data.dropWhile pyIsSpace).length := List.length_reverse _
    _ ≤ s.data.length := length_dropWhile_le _ _

theorem export_foldl_eq (l : List Section) (acc : String) :
    l.foldl (fun a s => a ++ "<h2>" ++ s.title ++ "</h2>" ++ s.content_html) acc
      = acc ++ sectionsHtml l := by
  induction l generalizing acc with
  | nil => simp [sectionsHtml, str_append_empty]
  | cons s t ih =>
    rw [List.foldl_cons, ih]
    simp [sectionsHtml, str_append_assoc]

theorem isqrtAux_eq_min (n : Nat) : ∀ fuel, isqrtAux n fuel = min (Nat.sqrt n) fuel := by
  intro fuel
  induction fuel with
  | zero => simp [isqrtAux]
  | succ f ih =>
    rw [isqrtAux, ih]
    by_cases h : Nat.sqrt n ≤ f
    · rw [min_eq_left h]
      have hno : ¬ (Nat.sqrt n + 1) * (Nat.sqrt n + 1) ≤ n :=
        Nat.not_le.mpr (Nat.lt_succ_sqrt n)
      rw [if_neg hno, min_eq_left (by omega)]
    · have hf : f + 1 ≤ Nat.sqrt n := by omega
      rw [min_eq_right (by omega)]
      have hyes : (f + 1) * (f + 1) ≤ n :=
        le_trans (Nat.mul_le_mul hf hf) (Nat.sqrt_le n)
      rw [if_pos hyes, min_eq_right (by omega)]

theorem pyIntSqrt_eq_sqrt (n : Nat) : pyIntSqrt n = Nat.sqrt n := by
  rw [pyIntSqrt, isqrtAux_eq_min, min_eq_left (Nat.sqrt_le_self n)]

theorem chunksF_spec {α : Type} :
    ∀ (k fuel n : Nat) (l : List α), 0 < n → l.length = k * n → k ≤ fuel →
      (chunksF fuel n l).length = k ∧ ∀ row ∈ chunksF fuel n l, row.length = n := by
  intro k
  induction k with
  | zero =>
    intro fuel n l _ hlen _
    have : l = [] := List.length_eq_zero.mp (by omega)
    subst this
    cases fuel <;> simp [chunksF]
  | succ k ih =>
    intro fuel n l hn hlen hfuel
    have hl : l ≠ [] := by
      intro h
      subst h
      simp at hlen
      omega
    obtain ⟨a, l', rfl⟩ := List.exists_cons_of_ne_nil hl
    obtain ⟨f, rfl⟩ : ∃ f, fuel = f + 1 := by
      cases fuel with
      | zero => omega
      | succ f => exact ⟨f, rfl⟩
    have hstep : chunksF (f + 1) n (a :: l')
        = (a :: l').take n :: chunksF f n ((a :: l').drop n) := rfl
    have hexp : (k + 1) * n = k * n + n := by ring
    have htake : ((a :: l').take n).length = n := by
      rw [List.length_take, hlen, hexp]
      omega
    have hdrop : ((a :: l').drop n).length = k * n := by
      rw [List.length_drop, hlen, hexp]
      omega
    obtain ⟨ihlen, ihrows⟩ := ih f n ((a :: l').drop n) hn hdrop (by omega)
    refine ⟨?_, ?_⟩
    · rw [hstep]
      simp [ihlen]
    · intro row hrow
      rw [hstep] at hrow
      rcases List.mem_cons.mp hrow with h | h
      · rw [h]; exact htake
      · exact ihrows row h

/-! ## The claims -/

/-- Claim C1: for every text of at least 100 characters, when the external
generation call inside `_analyze_with_groq` or `_analyze_with_gemini`
raises any exception, the value returned by that path is exactly the value
`_analyze_with_rules` returns on the same text.  The exception is never
propagated: both embedded paths are total functions into `AnalyzeResult`
(the `except Exception` blocks of the source catch everything the call can
raise). -/
theorem backend_exception_falls_back_to_rules :
    (∀ (svc : String → Except String String)
        (text custom_prompt summary_length e : String),
        100 ≤ text.length →
        svc (groq_prompt text custom_prompt summary_length) = .error e →
        _analyze_with_groq svc text custom_prompt summary_length
          = .dashboard (_analyze_with_rules text))
    ∧ (∀ (svc : String → Except String String)
        (jsonLoads : String → Except String PyJson) (text e : String),
        100 ≤ text.length →
        svc (gemini_prompt text) = .error e →
        _analyze_with_gemini svc jsonLoads text
          = .dashboard (_analyze_with_rules text)) := by
  constructor
  · intro svc text custom_prompt summary_length e _ hsvc
    simp [_analyze_with_groq, hsvc]
  · intro svc jsonLoads text e _ hsvc
    simp [_analyze_with_gemini, hsvc]

/-- Witness for C1: a concrete 120-character text and an always-raising
service, on both AI-backed paths. -/
theorem backend_exception_falls_back_to_rules_witness :
    100 ≤ longText.length
    ∧ svcFailing (groq_prompt longText "" "Standard") = .error "RateLimitError"
    ∧ svcFailing (gemini_prompt longText) = .error "RateLimitError"
    ∧ _analyze_with_groq svcFailing longText "" "Standard"
        = .dashboard (_analyze_with_rules longText)
    ∧ _analyze_with_gemini svcFailing jsonLoadsFailing longText
        = .dashboard (_analyze_with_rules longText) :=
  ⟨by decide, rfl, rfl,
   backend_exception_falls_back_to_rules.1 svcFailing longText "" "Standard"
     "RateLimitError" (by decide) rfl,
   backend_exception_falls_back_to_rules.2 svcFailing jsonLoadsFailing longText
     "RateLimitError" (by decide) rfl⟩

/-- Claim C2: whenever the extracted text is empty or shorter than 100
characters, `analyze_document` returns — without raising — the fixed
error dashboard: title `"Analysis Error"`, exactly one section titled
`"Error"`, and `share_ready = false`. -/
theorem short_text_error_dashboard :
    (∀ (st : AnalyzerState) (svc : String → Except String String)
        (jsonLoads : String → Except String PyJson) (fs : PyFS)
        (file_path custom_prompt summary_length text : String),
        extract_text fs file_path = .ok text →
        text = "" ∨ text.length < 100 →
        analyze_document st svc jsonLoads fs file_path custom_prompt summary_length
          = .ok (.dashboard (_generate_error_response "Document too short or empty")))
    ∧ (_generate_error_response "Document too short or empty").title = "Analysis Error"
    ∧ (_generate_error_response "Document too short or empty").sections.map Section.title
        = ["Error"]
    ∧ (_generate_error_response "Document too short or empty").share_ready = false := by
  refine ⟨?_, rfl, rfl, rfl⟩
  intro st svc jsonLoads fs file_path custom_prompt summary_length text hex hshort
  have hcond : text = "" ∨ (pyStrip text).length < 100 := by
    rcases hshort with h | h
    · exact Or.inl h
    · exact Or.inr (lt_of_le_of_lt (pyStrip_length_le text) h)
  simp only [analyze_document, hex]
  rw [if_pos hcond]

/-- Witness for C2: a file system whose text file holds the 5-character
document `"short"`. -/
theorem short_text_error_dashboard_witness :
    extract_text fsShortTxt "doc.txt" = .ok "short"
    ∧ ("short" = "" ∨ ("short" : String).length < 100)
    ∧ analyze_document (DocumentAnalyzer.init cfgGroqNoKey (.ok ()) (.ok ()))
        svcFailing jsonLoadsFailing fsShortTxt "doc.txt" "" "Standard"
        = .ok (.dashboard (_generate_error_response "Document too short or empty")) :=
  ⟨rfl, Or.inr (by decide),
   short_text_error_dashboard.1 (DocumentAnalyzer.init cfgGroqNoKey (.ok ()) (.ok ()))
     svcFailing jsonLoadsFailing fsShortTxt "doc.txt" "" "Standard" "short" rfl
     (Or.inr (by decide))⟩

/-- Claim C3 counterexample: `export_html` is not script-free — the
abstract capture of
`"Abstract: <script>alert(1)</script>\n\nrest"` is interpolated into
`export_html` verbatim, so the output contains a `<script>` tag. -/
theorem export_html_contains_script_cex :
    (_analyze_with_rules cexText).export_html
      = "<section><h2>Abstract</h2><p><script>alert(1)</script></p></section>"
    ∧ List.IsInfix "<script>".data
        "<section><h2>Abstract</h2><p><script>alert(1)</script></p></section>".data := by
  exact ⟨by decide, by decide⟩

/-- Claim C3 (amended): `export_html` is a deterministic function of the
sections sequence — the concatenation of `<h2>{title}</h2>{content_html}`
per section wrapped in a single container element.  (The sanitisation
half of the original claim fails: section content is interpolated without
escaping, see the counterexample.) -/
theorem export_html_determined_by_sections :
    ∀ text, (_analyze_with_rules text).export_html
      = exportShapeOfSections (_analyze_with_rules text).sections := by
  intro text
  simp only [_analyze_with_rules, exportShapeOfSections]
  rw [export_foldl_eq]

/-- Claim C4 counterexample: `extract_text` does raise when the `txt`
branch's file read itself fails (that branch has no `try`), so the claim
"extract_text never raises an exception" is false for a `txt` path whose
read raises. -/
theorem extract_text_txt_read_raises_cex :
    extract_text fsMissingTxt "doc.txt" = .error "FileNotFoundError: doc.txt" := rfl

/-- Claim C4 (amended): `extract_text` raises exactly when the extension
is `txt` and the file read raises; undecodable bytes never fail the `txt`
branch (the read is performed with `errors='ignore'`); `pdf` and
`docx`/`doc` failures are returned as a short human-readable error string
in place of text; an unknown extension yields the empty string. -/
theorem extract_text_failure_characterisation :
    (∀ (fs : PyFS) (file_path e : String),
        extract_text fs file_path = .error e
          ↔ fileExtOf file_path = "txt" ∧ fs.readTxt file_path = .error e)
    ∧ (∀ (fs : PyFS) (file_path : String), fileExtOf file_path = "pdf" →
        extract_text fs file_path
          = .ok (match fs.readPdf file_path with
                 | .ok t => t
                 | .error e => "Error extracting PDF: " ++ e))
    ∧ (∀ (fs : PyFS) (file_path : String),
        fileExtOf file_path = "docx" ∨ fileExtOf file_path = "doc" →
        extract_text fs file_path
          = .ok (match fs.readDocx file_path with
                 | .ok t => t
                 | .error e => "Error extracting DOCX: " ++ e))
    ∧ (∀ (fs : PyFS) (file_path : String),
        fileExtOf file_path ≠ "txt" → fileExtOf file_path ≠ "pdf" →
        fileExtOf file_path ≠ "docx" → fileExtOf file_path ≠ "doc" →
        extract_text fs file_path = .ok "") := by
  refine ⟨?_, ?_, ?_, ?_⟩
  · intro fs file_path e
    constructor
    · intro h
      unfold extract_text at h
      by_cases h1 : fileExtOf file_path = "txt"
      · rw [if_pos h1] at h
        exact ⟨h1, h⟩
      · rw [if_neg h1] at h
        by_cases h2 : fileExtOf file_path = "pdf"
        · rw [if_pos h2] at h
          cases hr : fs.readPdf file_path <;> rw [hr] at h <;> exact Except.noConfusion h
        · rw [if_neg h2] at h
          by_cases h3 : fileExtOf file_path = "docx" ∨ fileExtOf file_path = "doc"
          · rw [if_pos h3] at h
            cases hr : fs.readDocx file_path <;> rw [hr] at h <;> exact Except.noConfusion h
          · rw [if_neg h3] at h
            exact Except.noConfusion h
    · rintro ⟨h1, h2⟩
      unfold extract_text
      rw [if_pos h1]
      exact h2
  · intro fs file_path h
    have h1 : fileExtOf file_path ≠ "txt" := by rw [h]; decide
    unfold extract_text
    rw [if_neg h1, if_pos h]
    cases hr : fs.readPdf file_path <;> simp [hr]
  · intro fs file_path h
    have h1 : fileExtOf file_path ≠ "txt" := by
      rcases h with h | h <;> rw [h] <;> decide
    have h2 : fileExtOf file_path ≠ "pdf" := by
      rcases h with h | h <;> rw [h] <;> decide
    unfold extract_text
    rw [if_neg h1, if_neg h2, if_pos h]
    cases hr : fs.readDocx file_path <;> simp [hr]
  · intro fs file_path h1 h2 h3 h4
    unfold extract_text
    rw [if_neg h1, if_neg h2, if_neg (by rintro (h | h) <;> [exact h3 h; exact h4 h])]

/-- Witness for C4 at the concrete failing file system. -/
theorem extract_text_failure_characterisation_witness :
    (fileExtOf "doc.txt" = "txt"
      ∧ fsMissingTxt.readTxt "doc.txt" = .error "FileNotFoundError: doc.txt")
    ∧ extract_text fsMissingTxt "doc.txt" = .error "FileNotFoundError: doc.txt" :=
  ⟨⟨rfl, rfl⟩,
   (extract_text_failure_characterisation.1 fsMissingTxt "doc.txt"
      "FileNotFoundError: doc.txt").mpr ⟨rfl, rfl⟩⟩

/-- Claim C5: on any text with at least three numeric tokens, the
rule-based analyzer emits a metrics section whose chart is a bar chart
with one synthetic label `Metric i` per value, a single dataset labelled
`"Values"`, and data equal to the first `min(6, count)` numeric tokens;
in particular on `"1 2 3 4 5 6 7"` the data is `[1,2,3,4,5,6]` with six
labels. -/
theorem metrics_section_first_six_numbers :
    (∀ text, 3 ≤ (findNumberTokens text).length →
      ({ id := "metrics", title := "Key Metrics",
         content_html := "<p>Numerical data extracted from the document.</p>",
         chart := some
           { type := "bar"
             labels := (List.range (min 6 (findNumberTokens text).length)).map
               (fun i => "Metric " ++ toString (i + 1))
             datasets := [{ label := "Values",
                            data := ((findNumberTokens text).take 6).map pyFloat,
                            color := "#0ea5e9" }] } } : Section)
        ∈ (_analyze_with_rules text).sections)
    ∧ (_analyze_with_rules numText).sections =
        [{ id := "metrics", title := "Key Metrics",
           content_html := "<p>Numerical data extracted from the document.</p>",
           chart := some
             { type := "bar"
               labels := ["Metric 1", "Metric 2", "Metric 3",
                          "Metric 4", "Metric 5", "Metric 6"]
               datasets := [{ label := "Values", data := [1, 2, 3, 4, 5, 6],
                              color := "#0ea5e9" }] } }] := by
  refine ⟨?_, by decide⟩
  intro text h
  simp only [_analyze_with_rules]
  rw [if_pos h, List.length_map, List.length_take]
  exact List.mem_append_left _ (List.mem_append_right _ (List.mem_singleton_self _))

/-- Witness for C5 on the seven-token text. -/
theorem metrics_section_first_six_numbers_witness :
    3 ≤ (findNumberTokens numText).length
    ∧ ({ id := "metrics", title := "Key Metrics",
         content_html := "<p>Numerical data extracted from the document.</p>",
         chart := some
           { type := "bar"
             labels := (List.range (min 6 (findNumberTokens numText).length)).map
               (fun i => "Metric " ++ toString (i + 1))
             datasets := [{ label := "Values",
                            data := ((findNumberTokens numText).take 6).map pyFloat,
                            color := "#0ea5e9" }] } } : Section)
        ∈ (_analyze_with_rules numText).sections :=
  ⟨by decide, metrics_section_first_six_numbers.1 numText (by decide)⟩

/-- Claim C6: the heatmap extractor returns no result below nine numeric
tokens; otherwise it returns a square matrix of side
`min(5, floor(sqrt(count)))` filled row-major with the first `side²`
numbers in order of appearance.  On the nine tokens `1..9` the matrix is
`[[1,2,3],[4,5,6],[7,8,9]]`; on eight tokens there is no result. -/
theorem heatmap_square_matrix :
    (∀ text, (findNumberTokens text).length < 9 →
      _generate_heatmap_data text = none)
    ∧ (∀ text, 9 ≤ (findNumberTokens text).length →
        _generate_heatmap_data text = some (heatmapSpec text)
        ∧ (heatmapSpec text).z.length
            = min 5 (Nat.sqrt (findNumberTokens text).length)
        ∧ ∀ row ∈ (heatmapSpec text).z,
            row.length = min 5 (Nat.sqrt (findNumberTokens text).length))
    ∧ _generate_heatmap_data nineText
        = some { type := "heatmap", z := [[1, 2, 3], [4, 5, 6], [7, 8, 9]],
                 x := ["Metric 1", "Metric 2", "Metric 3"],
                 y := ["Category 1", "Category 2", "Category 3"],
                 colorscale := "Viridis" }
    ∧ _generate_heatmap_data eightText = none := by
  refine ⟨?_, ?_, by decide, by decide⟩
  · intro text h
    simp only [_generate_heatmap_data]
    rw [if_pos h]
  · intro text h
    have hsqrt9 : Nat.sqrt 9 = 3 := by rw [← pyIntSqrt_eq_sqrt]; decide
    have hs3 : 3 ≤ min 5 (Nat.sqrt (findNumberTokens text).length) := by
      have h1 : Nat.sqrt 9 ≤ Nat.sqrt (findNumberTokens text).length :=
        Nat.sqrt_le_sqrt h
      rw [hsqrt9] at h1
      omega
    have hside : min 5 (Nat.sqrt (findNumberTokens text).length)
        ≤ Nat.sqrt (findNumberTokens text).length := min_le_right _ _
    have hsq : min 5 (Nat.sqrt (findNumberTokens text).length)
          * min 5 (Nat.sqrt (findNumberTokens text).length)
        ≤ (findNumberTokens text).length :=
      le_trans (Nat.mul_le_mul hside hside) (Nat.sqrt_le _)
    have hdata : (((findNumberTokens text).take
          (min 5 (Nat.sqrt (findNumberTokens text).length)
            * min 5 (Nat.sqrt (findNumberTokens text).length))).map pyFloat).length
        = min 5 (Nat.sqrt (findNumberTokens text).length)
          * min 5 (Nat.sqrt (findNumberTokens text).length) := by
      rw [List.length_map, List.length_take]
      omega
    obtain ⟨hlen, hrows⟩ :=
      chunksF_spec (min 5 (Nat.sqrt (findNumberTokens text).length))
        (((findNumberTokens text).take
          (min 5 (Nat.sqrt (findNumberTokens text).length)
            * min 5 (Nat.sqrt (findNumberTokens text).length))).map pyFloat).length
        (min 5 (Nat.sqrt (findNumberTokens text).length))
        (((findNumberTokens text).take
          (min 5 (Nat.sqrt (findNumberTokens text).length)
            * min 5 (Nat.sqrt (findNumberTokens text).length))).map pyFloat)
        (by omega) hdata
        (by rw [hdata]; exact Nat.le_mul_of_pos_right _ (by omega))
    refine ⟨?_, ?_, ?_⟩
    · simp only [_generate_heatmap_data, heatmapSpec, pyIntSqrt_eq_sqrt]
      rw [if_neg (by omega)]
    · simpa only [heatmapSpec, chunksOf] using hlen
    · simpa only [heatmapSpec, chunksOf] using hrows

/-- Witness for C6 at the eight-token and nine-token boundary texts. -/
theorem heatmap_square_matrix_witness :
    ((findNumberTokens eightText).length < 9
      ∧ _generate_heatmap_data eightText = none)
    ∧ (9 ≤ (findNumberTokens nineText).length
      ∧ _generate_heatmap_data nineText = some (heatmapSpec nineText)) :=
  ⟨⟨by decide, heatmap_square_matrix.1 eightText (by decide)⟩,
   ⟨by decide, (heatmap_square_matrix.2.1 nineText (by decide)).1⟩⟩

/-- Claim C7 counterexample: on `"a|b\nx|\nc|d"` the middle line contains
a separator but splits into a single cell; the claim says such a
non-qualifying line closes the accumulation (yielding no table), but the
code skips it and keeps the accumulation open, emitting one table. -/
theorem tabular_open_accumulation_cex :
    _extract_tabular_data tabCexText
      = [{ headers := ["a", "b"], rows := [["c", "d"]] }]
    ∧ tabularClaimSpec tabCexText = [] :=
  ⟨by decide, by decide⟩

theorem tabularLoop_eq_amended :
    ∀ (lines : List String) (current : List (List String)) (acc : List Table),
      tabularLoop lines current acc = tabularAmendedLoop lines current acc := by
  intro lines
  induction lines with
  | nil =>
    intro current acc
    simp only [tabularLoop, tabularAmendedLoop]
    by_cases hc : current.length ≥ 2
    · have hne : current ≠ [] := by
        intro he
        rw [he] at hc
        simp at hc
      rw [if_pos ⟨hne, hc⟩, if_pos hc]
    · rw [if_neg (by tauto), if_neg hc]
  | cons line rest ih =>
    intro current acc
    simp only [tabularLoop, tabularAmendedLoop]
    by_cases hsep : (strContainsChar line '|' || strContainsChar line '\t') = true
    · rw [if_pos hsep, if_pos hsep]
      by_cases hc : (pySplitCells line).length ≥ 2
      · rw [if_pos hc, if_pos hc]
        exact ih _ _
      · rw [if_neg hc, if_neg hc]
        exact ih _ _
    · rw [if_neg hsep, if_neg hsep]
      by_cases hne : current ≠ []
      · rw [if_pos hne]
        exact ih _ _
      · rw [if_neg hne]
        have hnil : current = [] := not_not.mp hne
        rw [hnil]
        simp only [List.length_nil]
        rw [if_neg (by omega)]
        exact ih _ _

/-- Claim C7 (amended): consecutive separator lines with at least two
trimmed non-empty cells accumulate; a table is emitted only from an
accumulation of at least two rows (first row headers, remainder body); a
line with no separator, or the end of the text, closes the current
accumulation, while a separator line with fewer than two cells is skipped
without closing it.  On `"a|b|c\n1|2|3\n"` exactly one table results,
with headers `["a","b","c"]` and one body row `["1","2","3"]`; a single
qualifying line yields no table. -/
theorem tabular_extraction_behaviour :
    (∀ text, _extract_tabular_data text = tabularAmendedSpec text)
    ∧ _extract_tabular_data tabHeaderBody
        = [{ headers := ["a", "b", "c"], rows := [["1", "2", "3"]] }]
    ∧ _extract_tabular_data tabSingleLine = [] := by
  refine ⟨?_, by decide, by decide⟩
  intro text
  simp only [_extract_tabular_data, tabularAmendedSpec]
  exact tabularLoop_eq_amended _ _ _

/-- Claim C8: whenever the abstract regex matches (a heading token
followed by `:`/whitespace), the rule-based analyzer emits — first — a
section with id `"abstract"` whose `content_html` is the captured text
(up to the next blank line or the end of the text) truncated to 500
characters and wrapped in a paragraph; on the specification's example the
content contains `"The quick brown fox jumps."`. -/
theorem abstract_section_capture :
    (∀ (text : String) (cap : List Char), findAbstract text = some cap →
      (_analyze_with_rules text).sections.head?
        = some { id := "abstract", title := "Abstract",
                 content_html := "<p>" ++ String.mk (cap.take 500) ++ "</p>",
                 chart := none })
    ∧ (_analyze_with_rules absText).sections.head?
        = some { id := "abstract", title := "Abstract",
                 content_html := "<p>The quick brown fox jumps. </p>",
                 chart := none }
    ∧ List.IsInfix "The quick brown fox jumps.".data
        "<p>The quick brown fox jumps. </p>".data := by
  refine ⟨?_, by decide, by decide⟩
  intro text cap h
  simp only [_analyze_with_rules, h, List.singleton_append, List.cons_append,
    List.head?_cons]

/-- Witness for C8 on the specification's example text. -/
theorem abstract_section_capture_witness :
    findAbstract absText = some "The quick brown fox jumps. ".data
    ∧ (_analyze_with_rules absText).sections.head?
        = some { id := "abstract", title := "Abstract",
                 content_html :=
                   "<p>" ++ String.mk ("The quick brown fox jumps. ".data.take 500) ++ "</p>",
                 chart := none } :=
  ⟨by decide,
   abstract_section_capture.1 absText "The quick brown fox jumps. ".data (by decide)⟩

/-- Claim C9 is contradicted by the code (code bug): `__init__` never
pre-initialises `self.client`, so whenever it constructs no Groq client —
Groq provider without an API key, or the Gemini provider — the guard
`if not self.client` in `chat_with_document` itself raises
`AttributeError` for every stored text and question, instead of returning
the fixed "AI Chat not available (Groq API key missing)." message, which
is unreachable. -/
theorem chat_raises_without_client :
    (DocumentAnalyzer.init cfgGroqNoKey (.ok ()) (.ok ())).client = none
    ∧ (DocumentAnalyzer.init cfgGemini (.ok ()) (.ok ())).client = none
    ∧ (∀ (svc : String → Except String String) (text question : String),
        chat_with_document (DocumentAnalyzer.init cfgGroqNoKey (.ok ()) (.ok ()))
          svc text question
          = .error "AttributeError: DocumentAnalyzer object has no attribute client")
    ∧ (∀ (svc : String → Except String String) (text question : String),
        chat_with_document (DocumentAnalyzer.init cfgGemini (.ok ()) (.ok ()))
          svc text question
          = .error "AttributeError: DocumentAnalyzer object has no attribute client") := by
  refine ⟨rfl, rfl, ?_, ?_⟩
  · intro svc text question
    rfl
  · intro svc text question
    rfl

theorem groq_prompt_custom_ne :
    groq_prompt "" "" "Standard" ≠ groq_prompt "" "x" "Standard" := by
  intro h
  have hlen := congrArg String.length h
  have hui0 : user_instructions_of "" = "" := rfl
  have huix : user_instructions_of "x"
      = "\nUSER CUSTOM INSTRUCTIONS:\n" ++ "x" ++
        "\n(Prioritize these instructions over default behavior)" := rfl
  rw [groq_prompt, groq_prompt, hui0, huix] at hlen
  simp only [str_length_append] at hlen
  have hx : ("x" : String).length = 1 := rfl
  have he : ("" : String).length = 0 := rfl
  rw [hx, he] at hlen
  omega

theorem svcProbeGroq_ok : svcProbeGroq (groq_prompt "" "x" "Standard") = .ok "A" := by
  unfold svcProbeGroq
  rw [if_pos rfl]

theorem svcProbeGroq_error :
    svcProbeGroq (groq_prompt "" "" "Standard") = .error "unexpected prompt" := by
  unfold svcProbeGroq
  rw [if_neg groq_prompt_custom_ne]

/-- Claim C10: the structured-JSON (Gemini) analysis result is
independent of the per-call options `custom_prompt` and `summary_length`
— `analyze_document` never passes them to `_analyze_with_gemini` — while
the custom-HTML (Groq) path embeds them in its prompt: two option values
produce different prompts, and a service distinguishing the prompts
produces different results. -/
theorem gemini_options_independence :
    (∀ (st : AnalyzerState) (svc : String → Except String String)
        (jsonLoads : String → Except String PyJson) (fs : PyFS)
        (file_path custom_prompt₁ summary_length₁ custom_prompt₂ summary_length₂ : String),
        st.ai_provider = "gemini" →
        analyze_document st svc jsonLoads fs file_path custom_prompt₁ summary_length₁
          = analyze_document st svc jsonLoads fs file_path custom_prompt₂ summary_length₂)
    ∧ groq_prompt "" "x" "Standard" ≠ groq_prompt "" "" "Standard"
    ∧ _analyze_with_groq svcProbeGroq "" "x" "Standard"
        ≠ _analyze_with_groq svcProbeGroq "" "" "Standard" := by
  refine ⟨?_, fun h => groq_prompt_custom_ne h.symm, ?_⟩
  · intro st svc jsonLoads fs file_path p₁ s₁ p₂ s₂ hgem
    unfold analyze_document
    cases hex : extract_text fs file_path with
    | error e => rfl
    | ok text =>
      dsimp only
      by_cases hshort : text = "" ∨ (pyStrip text).length < 100
      · rw [if_pos hshort, if_pos hshort]
      · rw [if_neg hshort, if_neg hshort]
        by_cases hm : st.model.isSome
        · rw [if_pos hm, if_pos hm]
          have hgroq : ¬ st.ai_provider = "groq" := by
            rw [hgem]
            decide
          rw [if_neg hgroq, if_neg hgroq]
        · rw [if_neg hm, if_neg hm]
  · have hAbstL : ∀ (svc : String → Except String String),
        svc (groq_prompt "" "x" "Standard") = .ok "A" →
        _analyze_with_groq svc "" "x" "Standard"
          = .customHtml (stripHtmlFences (pyStrip "A")) "" := by
      intro svc h
      unfold _analyze_with_groq
      rw [h]
    have hAbstR : ∀ (svc : String → Except String String) (e : String),
        svc (groq_prompt "" "" "Standard") = .error e →
        _analyze_with_groq svc "" "" "Standard"
          = .dashboard (_analyze_with_rules "") := by
      intro svc e h
      unfold _analyze_with_groq
      rw [h]
    intro h
    rw [hAbstL svcProbeGroq svcProbeGroq_ok,
        hAbstR svcProbeGroq "unexpected prompt" svcProbeGroq_error] at h
    exact AnalyzeResult.noConfusion h

/-- Witness for C10 at a concrete Gemini-configured analyzer state. -/
theorem gemini_options_independence_witness :
    (DocumentAnalyzer.init cfgGemini (.ok ()) (.ok ())).ai_provider = "gemini"
    ∧ analyze_document (DocumentAnalyzer.init cfgGemini (.ok ()) (.ok ()))
        svcFailing jsonLoadsFailing fsShortTxt "doc.txt" "custom" "Brief"
      = analyze_document (DocumentAnalyzer.init cfgGemini (.ok ()) (.ok ()))
        svcFailing jsonLoadsFailing fsShortTxt "doc.txt" "" "Standard" :=
  ⟨rfl,
   gemini_options_independence.1 (DocumentAnalyzer.init cfgGemini (.ok ()) (.ok ()))
     svcFailing jsonLoadsFailing fsShortTxt "doc.txt" "custom" "Brief" "" "Standard" rfl⟩

end PlotResearch
